import Mathlib

/-!
Verification of the GridGen scenario-validation core.

The definitions below are a shallow embedding of the rule-based validation
pipeline implemented in `frontend/src/services/ApiService.js` (functions
`_validateScenarioData`, `validateScenario`, `getValidationResults`) and of
the older variant of the same service kept in the repository (its mocked
`getValidationResults` fallback).  JavaScript numbers are modelled as
rationals, absent object fields as `Option`, and the JavaScript `||`
fall-through (which treats `0`, `undefined` and the empty string as falsy)
by explicit helper functions.
-/

namespace GridGen

/-- A bus's `initial_status` sub-record: optional voltage-magnitude override. -/
structure InitialStatus where
  vm : Option ℚ
  deriving Repr, DecidableEq

/-- A bus of the network: identifier, optional `vm` (per-unit voltage
magnitude) and optional `initial_status` record. -/
structure Bus where
  id : String
  vm : Option ℚ
  initial_status : Option InitialStatus
  deriving Repr, DecidableEq

/-- An AC line; the rule-based validator reads the collection but never
inspects its elements. -/
structure AcLine where
  id : String
  deriving Repr, DecidableEq

/-- A dispatchable device, tagged `producer` (generator) or `consumer`
(load) through its `device_type` string. -/
structure Device where
  device_type : String
  deriving Repr, DecidableEq

/-- The `network` record of a scenario.  Each collection may be absent
(JavaScript `undefined`), in which case the code substitutes `[]`. -/
structure Network where
  bus : Option (List Bus)
  ac_line : Option (List AcLine)
  simple_dispatchable_device : Option (List Device)
  deriving Repr, DecidableEq

/-- A scenario document: optional `scenario_id`, optional fallback `id`,
optional `network`. -/
structure Scenario where
  scenario_id : Option String
  id : Option String
  network : Option Network
  deriving Repr, DecidableEq

/-- A voltage-violation entry as produced by `validateScenario`. -/
structure Violation where
  bus_id : String
  type : String
  value : ℚ
  limit : ℚ
  deriving Repr, DecidableEq

/-- A line-violation entry as produced by `validateScenario`. -/
structure LineViolation where
  line_id : String
  type : String
  value : ℚ
  limit : ℚ
  deriving Repr, DecidableEq

/-- The `physics_validation` block of a validation result. -/
structure PhysicsValidation where
  is_valid : Bool
  voltage_violations : List Violation
  line_violations : List LineViolation
  deriving Repr, DecidableEq

/-- The `opendss_validation` (circuit) block of a validation result. -/
structure OpendssValidation where
  success : Bool
  voltage_violations : List Violation
  thermal_violations : List Violation
  deriving Repr, DecidableEq

/-- The full validation result object returned by the service. -/
structure ValidationResult where
  scenario_id : String
  is_valid : Bool
  physics_validation : PhysicsValidation
  opendss_validation : OpendssValidation
  opendss_success : Bool
  deriving Repr, DecidableEq

/-- JavaScript `x || d` on an optional number: `undefined` and `0` are
falsy and fall through to the default. -/
def jsOrQ (x : Option ℚ) (d : ℚ) : ℚ :=
  match x with
  | some v => if v = 0 then d else v
  | none => d

/-- JavaScript `x || d` on an optional string: `undefined` and `""` are
falsy and fall through to the default. -/
def jsOrS (x : Option String) (d : String) : String :=
  match x with
  | some s => if s = "" then d else s
  | none => d

/-- Does the character list contain `pat` as a contiguous sub-list?  Models
`String.prototype.includes` on the underlying character data. -/
def charsContain (pat : List Char) : List Char → Bool
  | [] => pat.isEmpty
  | c :: rest => pat.isPrefixOf (c :: rest) || charsContain pat rest

/-- JavaScript `s.includes(pat)`: case-sensitive contiguous substring test. -/
def includesSub (s pat : String) : Bool :=
  charsContain pat.toList s.toList

/-- `scenario.network || {}` — the network record with absent collections. -/
def networkOf (s : Scenario) : Network :=
  s.network.getD { bus := none, ac_line := none, simple_dispatchable_device := none }

/-- `network.bus || []`. -/
def busesOf (s : Scenario) : List Bus :=
  (networkOf s).bus.getD []

/-- `network.simple_dispatchable_device || []`. -/
def devicesOf (s : Scenario) : List Device :=
  (networkOf s).simple_dispatchable_device.getD []

/-- `devices.filter(d => d.device_type === 'producer')`. -/
def generatorsOf (s : Scenario) : List Device :=
  (devicesOf s).filter fun d => d.device_type == "producer"

/-- `devices.filter(d => d.device_type === 'consumer')`. -/
def loadsOf (s : Scenario) : List Device :=
  (devicesOf s).filter fun d => d.device_type == "consumer"

/-- `scenario.scenario_id || scenario.id || ''` — the identifier consulted
by the naming heuristic, with JavaScript falsy fall-through. -/
def idOf (s : Scenario) : String :=
  jsOrS s.scenario_id (jsOrS s.id "")

/-- `bus.initial_status?.vm || bus.vm || 1.0` — the voltage the range check
reads.  Note the JavaScript `||`: a present but zero `vm` is falsy and
falls through to the next alternative. -/
def busVoltage (b : Bus) : ℚ :=
  jsOrQ (b.initial_status.bind InitialStatus.vm) (jsOrQ b.vm 1.0)

/-- The loop-body test `voltage < 0.95 || voltage > 1.05`. -/
def busBad (b : Bus) : Bool :=
  decide (busVoltage b < 0.95) || decide (1.05 < busVoltage b)

/-- The `for … break` scan over buses: the first bus failing the voltage
range, if any.  Buses after the first failing one are never examined. -/
def firstBadBus : List Bus → Option Bus
  | [] => none
  | b :: rest => if busBad b then some b else firstBadBus rest

/-- `ApiService._validateScenarioData` (frontend service, lines 201-243):
the rule-based physics check.  Sequentially overwrites `isValid` for each
failed criterion; the bus loop is modelled by `firstBadBus`, which, like the
`break` in the source, stops at the first out-of-range bus. -/
def _validateScenarioData (scenario : Scenario) : Bool :=
  let generators := generatorsOf scenario
  let loads := loadsOf scenario
  let isValid := true
  let isValid := if generators.length < 1 then false else isValid
  let isValid :=
    if generators.length > 0 ∧ (2 : ℚ) < (loads.length : ℚ) / (generators.length : ℚ)
    then false else isValid
  let id := idOf scenario
  let isValid :=
    if includesSub id "invalid" || includesSub id "stress" || includesSub id "overload"
    then false else isValid
  let isValid := if (firstBadBus (busesOf scenario)).isSome then false else isValid
  isValid

/-- The hardcoded voltage-violation entry the service attaches to every
invalid result (lines 115-120 and 149-154). -/
def placeholderVoltageViolation : Violation :=
  { bus_id := "Bus1", type := "Low voltage", value := 0.92, limit := 0.95 }

/-- The hardcoded line-violation entry the service attaches to every
invalid result (lines 121-126 and 155-160). -/
def placeholderLineViolation : LineViolation :=
  { line_id := "Line1-2", type := "Flow exceeds limit", value := 320, limit := 300 }

/-- The result object literal `validateScenario` returns on both its
non-error paths (lines 110-134 and 144-168): every flag copies `isValid`,
and the violation lists are empty when valid and the placeholders when not. -/
def mkResult (scenarioId : String) (isValid : Bool) : ValidationResult :=
  { scenario_id := scenarioId
    is_valid := isValid
    physics_validation :=
      { is_valid := isValid
        voltage_violations := if isValid then [] else [placeholderVoltageViolation]
        line_violations := if isValid then [] else [placeholderLineViolation] }
    opendss_validation :=
      { success := isValid
        voltage_violations := []
        thermal_violations := [] }
    opendss_success := isValid }

/-- The result object literal returned from the `catch` block of
`validateScenario` (lines 171-190): all flags false and a single synthetic
violation. -/
def errorResult (scenarioId : String) : ValidationResult :=
  { scenario_id := scenarioId
    is_valid := false
    physics_validation :=
      { is_valid := false
        voltage_violations := [{ bus_id := "Error", type := "Error validating", value := 0, limit := 0 }]
        line_violations := [] }
    opendss_validation :=
      { success := false
        voltage_violations := []
        thermal_violations := [] }
    opendss_success := false }

/-- Outcome of the awaited `getScenarioById` call: the fetched scenario, or
a thrown error (network failure, unknown id). -/
inductive FetchResult where
  | ok (scenario : Scenario)
  | err
  deriving Repr, DecidableEq

/-- `ApiService.validateScenario` (frontend service, lines 103-192).  With
direct `scenarioData` the fetch never happens; otherwise the fetched
scenario is validated, and a throw anywhere in the `try` block is caught
and normalised into `errorResult`. -/
def validateScenario (scenarioId : String) (scenarioData : Option Scenario)
    (fetch : FetchResult) : ValidationResult :=
  match scenarioData with
  | some d => mkResult scenarioId (_validateScenarioData d)
  | none =>
    match fetch with
    | FetchResult.ok s => mkResult scenarioId (_validateScenarioData s)
    | FetchResult.err => errorResult scenarioId

/-- `ApiService.getValidationResults` (frontend service, lines 251-307).
`endpoint` is the validation endpoint's response when it exists; on its
failure the simulated fallback runs: the id heuristic, overridden by the
full rule-based check whenever the scenario could be fetched. -/
def getValidationResults (scenarioId : String) (endpoint : Option ValidationResult)
    (fetched : Option Scenario) : ValidationResult :=
  match endpoint with
  | some r => r
  | none =>
    let isValid := true
    let isValid :=
      if includesSub scenarioId "invalid" || includesSub scenarioId "stress" ||
          includesSub scenarioId "overload"
      then false else isValid
    let isValid :=
      match fetched with
      | some s => _validateScenarioData s
      | none => isValid
    mkResult scenarioId isValid

/-- The mocked fallback of `getValidationResults` in the repository's older
service variant (lines 136-150 of that file): `r1` and `r2` stand for the
two independent `Math.random() > 0.3` draws. -/
def getValidationResultsMock (scenarioId : String) (r1 r2 : Bool) : ValidationResult :=
  { scenario_id := scenarioId
    is_valid := r1
    physics_validation := { is_valid := r2, voltage_violations := [], line_violations := [] }
    opendss_validation := { success := true, voltage_violations := [], thermal_violations := [] }
    opendss_success := true }

/-- Formalisation of claim C4's stated voltage-reading rule, following the
claim's words: `initial_status.vm` if that field is present, else `vm` if
present, else the default `1.0` — with no special treatment of zero. -/
def claimBusVoltage (b : Bus) : ℚ :=
  match b.initial_status.bind InitialStatus.vm with
  | some v => v
  | none =>
    match b.vm with
    | some v => v
    | none => 1.0

/-- The amended voltage-reading rule: `initial_status.vm` if present and
nonzero, else `vm` if present and nonzero, else `1.0` (the JavaScript `||`
fall-through). -/
def amendedBusVoltage (b : Bus) : ℚ :=
  match b.initial_status.bind InitialStatus.vm with
  | some v =>
    if v = 0 then
      match b.vm with
      | some w => if w = 0 then 1.0 else w
      | none => 1.0
    else v
  | none =>
    match b.vm with
    | some w => if w = 0 then 1.0 else w
    | none => 1.0

/-- A producer (generator) device used in concrete test scenarios. -/
def producerDevice : Device := { device_type := "producer" }

/-- A bus with nominal voltage used in concrete test scenarios. -/
def goodBus : Bus := { id := "B2", vm := some 1.0, initial_status := none }

/-- A bus whose read voltage 0.80 is below the 0.95 lower bound. -/
def badBus : Bus := { id := "B7", vm := some 0.80, initial_status := none }

/-- A bus whose `vm` field is present but equal to `0`. -/
def zeroVmBus : Bus := { id := "B1", vm := some 0, initial_status := none }

/-- Concrete scenario for claim C4: well-formed except that its only bus
carries `vm = 0`. -/
def sc0 : Scenario :=
  { scenario_id := some "demo-001", id := none,
    network := some { bus := some [zeroVmBus], ac_line := none,
                      simple_dispatchable_device := some [producerDevice] } }

/-- Concrete scenario for claim C5: one producer, benign identifier, and a
single bus (`B7`) whose voltage 0.80 is out of range. -/
def sc5 : Scenario :=
  { scenario_id := some "demo", id := none,
    network := some { bus := some [badBus], ac_line := none,
                      simple_dispatchable_device := some [producerDevice] } }

/-- Concrete scenario for claim C6: no network at all, hence no producer
devices, hence invalid. -/
def sc6 : Scenario :=
  { scenario_id := some "demo-006", id := none, network := none }

/-- Concrete scenario for claim C3: electrically perfect but its
`scenario_id` contains the substring `stress`. -/
def scStress : Scenario :=
  { scenario_id := some "stress-test-7", id := none,
    network := some { bus := some [goodBus], ac_line := none,
                      simple_dispatchable_device := some [producerDevice] } }

/-! ## Helper lemmas -/

theorem busBad_eq_false_iff (b : Bus) :
    busBad b = false ↔ (0.95 : ℚ) ≤ busVoltage b ∧ busVoltage b ≤ 1.05 := by
  simp [busBad, not_lt]

theorem firstBadBus_eq_none_iff (l : List Bus) :
    firstBadBus l = none ↔
      ∀ b ∈ l, (0.95 : ℚ) ≤ busVoltage b ∧ busVoltage b ≤ 1.05 := by
  induction l with
  | nil => simp [firstBadBus]
  | cons b rest ih =>
    by_cases h : busBad b
    · simp only [firstBadBus, h, if_true]
      constructor
      · intro hc
        exact absurd hc (by simp)
      · intro hall
        have hb := (busBad_eq_false_iff b).mpr (hall b (List.mem_cons_self b rest))
        rw [hb] at h
        cases h
    · have hb := (Bool.not_eq_true _).mp h
      simp only [firstBadBus, hb, Bool.false_eq_true, if_false]
      rw [ih]
      constructor
      · intro hall b' hb'
        rcases List.mem_cons.mp hb' with h1 | h1
        · subst h1
          exact (busBad_eq_false_iff b').mp hb
        · exact hall b' h1
      · intro hall b' hb'
        exact hall b' (List.mem_cons_of_mem _ hb')

/-! ## Claim theorems -/

/-- C1: the rule-based physics check `_validateScenarioData` returns true
iff all four criteria pass — at least one producer device exists, the
consumer/producer ratio is at most 2, the identifier (scenario_id with
fallback id) contains none of the substrings `invalid`, `stress`,
`overload`, and every bus's read voltage lies in `[0.95, 1.05]`.  The
first conjunct makes a zero-producer scenario invalid and the second makes
a ratio above 2 invalid. -/
theorem C1_physics_check_iff (s : Scenario) :
    _validateScenarioData s = true ↔
      (1 ≤ (generatorsOf s).length ∧
       ((loadsOf s).length : ℚ) / ((generatorsOf s).length : ℚ) ≤ 2 ∧
       includesSub (idOf s) "invalid" = false ∧
       includesSub (idOf s) "stress" = false ∧
       includesSub (idOf s) "overload" = false ∧
       ∀ b ∈ busesOf s, (0.95 : ℚ) ≤ busVoltage b ∧ busVoltage b ≤ 1.05) := by
  simp only [_validateScenarioData]
  split_ifs with h4 h3 h2 h1
  · simp only [Bool.false_eq_true, false_iff]
    rintro ⟨-, -, -, -, -, hb⟩
    rw [(firstBadBus_eq_none_iff _).mpr hb] at h4
    simp at h4
  · simp only [Bool.false_eq_true, false_iff]
    rintro ⟨-, -, hi1, hi2, hi3, -⟩
    simp [hi1, hi2, hi3] at h3
  · simp only [Bool.false_eq_true, false_iff]
    rintro ⟨-, hr, -, -, -, -⟩
    exact absurd h2.2 (not_lt.mpr hr)
  · simp only [Bool.false_eq_true, false_iff]
    rintro ⟨hg, -, -, -, -, -⟩
    omega
  · simp only [true_iff]
    refine ⟨by omega, ?_, ?_, ?_, ?_, ?_⟩
    · by_contra hr
      exact h2 ⟨by omega, lt_of_not_le hr⟩
    · cases hi : includesSub (idOf s) "invalid" with
      | false => rfl
      | true => exact absurd (by simp [hi]) h3
    · cases hi : includesSub (idOf s) "stress" with
      | false => rfl
      | true => exact absurd (by simp [hi]) h3
    · cases hi : includesSub (idOf s) "overload" with
      | false => rfl
      | true => exact absurd (by simp [hi]) h3
    · refine (firstBadBus_eq_none_iff _).mp ?_
      cases hf : firstBadBus (busesOf s) with
      | none => rfl
      | some b => exact absurd (by simp [hf]) h4

/-- C2: in every result the rule-based core produces — any branch of
`validateScenario`, and the simulated fallback of `getValidationResults` —
the top-level `is_valid` equals the conjunction of
`physics_validation.is_valid` and the circuit block's `success` flag. -/
theorem C2_is_valid_is_conjunction (scenarioId : String) (data : Option Scenario)
    (f : FetchResult) (fetched : Option Scenario) :
    (validateScenario scenarioId data f).is_valid
      = ((validateScenario scenarioId data f).physics_validation.is_valid &&
         (validateScenario scenarioId data f).opendss_validation.success) ∧
    (getValidationResults scenarioId none fetched).is_valid
      = ((getValidationResults scenarioId none fetched).physics_validation.is_valid &&
         (getValidationResults scenarioId none fetched).opendss_validation.success) := by
  constructor
  · cases data with
    | some d => simp [validateScenario, mkResult]
    | none => cases f <;> simp [validateScenario, mkResult, errorResult]
  · cases fetched <;> simp [getValidationResults, mkResult]

/-- C3: a scenario whose identifier (scenario_id, with fall-through to the
`id` field) contains the substring `invalid`, `stress` or `overload` is
validated as `is_valid = false` on both entry paths of `validateScenario`,
regardless of its electrical content. -/
theorem C3_flagged_id_is_invalid (scenarioId : String) (f : FetchResult) (s : Scenario)
    (h : includesSub (idOf s) "invalid" = true ∨ includesSub (idOf s) "stress" = true ∨
         includesSub (idOf s) "overload" = true) :
    (validateScenario scenarioId (some s) f).is_valid = false ∧
    (validateScenario scenarioId none (FetchResult.ok s)).is_valid = false := by
  have hv : _validateScenarioData s = false := by
    simp only [_validateScenarioData]
    rcases h with h | h | h <;> simp [h]
  simp [validateScenario, mkResult, hv]

/-- Witness for C3: the electrically perfect scenario `stress-test-7` is
rejected through the identifier heuristic. -/
theorem C3_flagged_id_is_invalid_witness :
    (includesSub (idOf scStress) "invalid" = true ∨
     includesSub (idOf scStress) "stress" = true ∨
     includesSub (idOf scStress) "overload" = true) ∧
    ((validateScenario "stress-test-7" (some scStress) FetchResult.err).is_valid = false ∧
     (validateScenario "stress-test-7" none (FetchResult.ok scStress)).is_valid = false) := by
  have h : includesSub (idOf scStress) "stress" = true := by decide
  exact ⟨Or.inr (Or.inl h),
         C3_flagged_id_is_invalid "stress-test-7" FetchResult.err scStress (Or.inr (Or.inl h))⟩

/-- C7: the `catch` path of `validateScenario` returns (rather than
throws) the normalized error result: `is_valid = false`, both sub-results
present, and a single synthetic violation with `bus_id = "Error"`, a
descriptive type, and zero value and limit. -/
theorem C7_validation_fault_normalized (scenarioId : String) :
    validateScenario scenarioId none FetchResult.err = errorResult scenarioId ∧
    (errorResult scenarioId).is_valid = false ∧
    (errorResult scenarioId).physics_validation.is_valid = false ∧
    (errorResult scenarioId).physics_validation.voltage_violations
      = [{ bus_id := "Error", type := "Error validating", value := 0, limit := 0 }] ∧
    (errorResult scenarioId).physics_validation.line_violations = [] ∧
    (errorResult scenarioId).opendss_validation.success = false ∧
    (errorResult scenarioId).opendss_success = false :=
  ⟨rfl, rfl, rfl, rfl, rfl, rfl, rfl⟩

/-- C8: in every result the service constructs — all branches of
`validateScenario`, the simulated fallback of `getValidationResults`, and
even the mocked fallback of the older service variant — the top-level
`opendss_success` mirror equals the nested `opendss_validation.success`. -/
theorem C8_success_mirror_in_sync (scenarioId : String) (data : Option Scenario)
    (f : FetchResult) (fetched : Option Scenario) (r1 r2 : Bool) :
    (validateScenario scenarioId data f).opendss_success
      = (validateScenario scenarioId data f).opendss_validation.success ∧
    (getValidationResults scenarioId none fetched).opendss_success
      = (getValidationResults scenarioId none fetched).opendss_validation.success ∧
    (getValidationResultsMock scenarioId r1 r2).opendss_success
      = (getValidationResultsMock scenarioId r1 r2).opendss_validation.success := by
  refine ⟨?_, rfl, rfl⟩
  cases data with
  | some d => rfl
  | none => cases f <;> rfl

/-- C9: validation is deterministic and pure — with the scenario data
supplied, the result of `validateScenario` does not depend on the fetch
environment at all (so two runs on the same data are identical), and the
fetch path yields exactly the same result as the direct path on the same
scenario. -/
theorem C9_validation_deterministic (scenarioId : String) (d : Scenario)
    (f1 f2 : FetchResult) :
    validateScenario scenarioId (some d) f1 = validateScenario scenarioId (some d) f2 ∧
    validateScenario scenarioId none (FetchResult.ok d)
      = validateScenario scenarioId (some d) f1 :=
  ⟨rfl, rfl⟩

/-- C10: the circuit block is a pure mirror of the rule-based check — in
every branch of `validateScenario` and in the simulated fallback of
`getValidationResults`, `opendss_validation.success` equals
`physics_validation.is_valid` and the circuit-level violation lists are
always empty. -/
theorem C10_circuit_block_mirrors_physics (scenarioId : String) (data : Option Scenario)
    (f : FetchResult) (fetched : Option Scenario) :
    ((validateScenario scenarioId data f).opendss_validation.success
       = (validateScenario scenarioId data f).physics_validation.is_valid ∧
     (validateScenario scenarioId data f).opendss_validation.voltage_violations = [] ∧
     (validateScenario scenarioId data f).opendss_validation.thermal_violations = []) ∧
    ((getValidationResults scenarioId none fetched).opendss_validation.success
       = (getValidationResults scenarioId none fetched).physics_validation.is_valid ∧
     (getValidationResults scenarioId none fetched).opendss_validation.voltage_violations = [] ∧
     (getValidationResults scenarioId none fetched).opendss_validation.thermal_violations = []) := by
  refine ⟨?_, ⟨rfl, rfl, rfl⟩⟩
  cases data with
  | some d => exact ⟨rfl, rfl, rfl⟩
  | none => cases f <;> exact ⟨rfl, rfl, rfl⟩

/-- Counterexample to C4 as stated: `zeroVmBus` has a present `vm` equal
to `0`, so the claim says the range check uses the value `0` (and hence
fails the bus); the code's JavaScript `||` treats `0` as falsy, reads the
default `1.0` instead, and accepts the whole scenario `sc0`. -/
theorem C4_counterexample :
    claimBusVoltage zeroVmBus = 0 ∧
    busVoltage zeroVmBus = 1 ∧
    busVoltage zeroVmBus ≠ claimBusVoltage zeroVmBus ∧
    ¬ ((0.95 : ℚ) ≤ claimBusVoltage zeroVmBus) ∧
    _validateScenarioData sc0 = true := by
  refine ⟨rfl, ?_, ?_, ?_, ?_⟩
  · norm_num [busVoltage, jsOrQ, zeroVmBus]
  · norm_num [busVoltage, claimBusVoltage, jsOrQ, zeroVmBus]
  · norm_num [claimBusVoltage, zeroVmBus]
  · norm_num [_validateScenarioData, generatorsOf, loadsOf, devicesOf, networkOf,
      busesOf, idOf, includesSub, charsContain, firstBadBus, busBad, busVoltage,
      jsOrQ, jsOrS, sc0, zeroVmBus, producerDevice, List.isPrefixOf]
    decide

/-- C4 (amended): the voltage used by the range check equals
`initial_status.vm` if present **and nonzero**, else `vm` if present **and
nonzero**, else the default `1.0` (JavaScript falsy fall-through); a bus
passes iff this value lies in `[0.95, 1.05]`.  In particular a bus whose
`vm` is present but equal to `0` is checked against the default `1.0`,
not against `0`. -/
theorem C4_voltage_read_amended (b : Bus) (i : String) :
    busVoltage b = amendedBusVoltage b ∧
    (busBad b = false ↔ (0.95 : ℚ) ≤ busVoltage b ∧ busVoltage b ≤ 1.05) ∧
    busVoltage { id := i, vm := some 0, initial_status := none } = 1 := by
  refine ⟨?_, busBad_eq_false_iff b, by norm_num [busVoltage, jsOrQ]⟩
  unfold busVoltage amendedBusVoltage jsOrQ
  cases b.initial_status.bind InitialStatus.vm with
  | none => cases b.vm <;> simp
  | some v =>
    cases b.vm with
    | none => simp
    | some w => by_cases hv : v = 0 <;> by_cases hw : w = 0 <;> simp [hv, hw]

/-- Counterexample to C5 as stated: in `sc5` the first (and only)
out-of-range bus is `B7` with read voltage `0.80`, yet the produced
violation entry carries the hardcoded `bus_id = "Bus1"` and
`value = 0.92`, not the observed bus and value. -/
theorem C5_counterexample :
    busesOf sc5 = [badBus] ∧
    badBus.id = "B7" ∧
    busVoltage badBus = 0.80 ∧
    (validateScenario "demo" (some sc5) FetchResult.err).physics_validation.voltage_violations
      = [placeholderVoltageViolation] ∧
    placeholderVoltageViolation.bus_id = "Bus1" ∧
    ("Bus1" : String) ≠ "B7" ∧
    placeholderVoltageViolation.value = 0.92 ∧
    (0.92 : ℚ) ≠ 0.80 := by
  have hv : _validateScenarioData sc5 = false := by
    norm_num [_validateScenarioData, generatorsOf, loadsOf, devicesOf, networkOf,
      busesOf, idOf, includesSub, charsContain, firstBadBus, busBad, busVoltage,
      jsOrQ, jsOrS, sc5, badBus, producerDevice, List.isPrefixOf]
  refine ⟨rfl, rfl, ?_, ?_, rfl, by decide, rfl, by norm_num⟩
  · norm_num [busVoltage, jsOrQ, badBus]
  · simp [validateScenario, mkResult, hv]

/-- C5 (amended): whenever the rule-based check fails — in particular when
a bus is out of range — the produced `voltage_violations` list is exactly
the single hardcoded placeholder entry (`bus_id = "Bus1"`,
`type = "Low voltage"`, `value = 0.92`, `limit = 0.95`), irrespective of
which bus failed, its observed voltage, or the violated bound; the bus
scan does stop at the first out-of-range bus (buses after it are never
examined). -/
theorem C5_placeholder_violation_amended (scenarioId : String) (s : Scenario)
    (f : FetchResult) (pre post post' : List Bus) (b : Bus)
    (h1 : _validateScenarioData s = false) (h2 : busBad b = true) :
    (validateScenario scenarioId (some s) f).physics_validation.voltage_violations
      = [placeholderVoltageViolation] ∧
    firstBadBus (pre ++ b :: post) = firstBadBus (pre ++ b :: post') := by
  constructor
  · simp [validateScenario, mkResult, h1]
  · induction pre with
    | nil => simp [firstBadBus, h2]
    | cons p rest ih =>
      by_cases hp : busBad p <;> simp [firstBadBus, hp, ih]

/-- Witness for C5 (amended): instantiated on the invalid scenario `sc5`
and its out-of-range bus `badBus`, with the tail of the bus list varied. -/
theorem C5_placeholder_violation_amended_witness :
    _validateScenarioData sc5 = false ∧
    busBad badBus = true ∧
    ((validateScenario "demo" (some sc5) FetchResult.err).physics_validation.voltage_violations
       = [placeholderVoltageViolation] ∧
     firstBadBus ([] ++ badBus :: []) = firstBadBus ([] ++ badBus :: [goodBus])) := by
  have h1 : _validateScenarioData sc5 = false := by
    norm_num [_validateScenarioData, generatorsOf, loadsOf, devicesOf, networkOf,
      busesOf, idOf, includesSub, charsContain, firstBadBus, busBad, busVoltage,
      jsOrQ, jsOrS, sc5, badBus, producerDevice, List.isPrefixOf]
  have h2 : busBad badBus = true := by
    norm_num [busBad, busVoltage, jsOrQ, badBus]
  exact ⟨h1, h2,
    C5_placeholder_violation_amended "demo" sc5 FetchResult.err [] [] [goodBus] badBus h1 h2⟩

/-- Counterexample to C6 as stated: the invalid scenario `sc6` (no
producer devices) yields a rule-based pass whose `line_violations` list is
not empty — it contains the hardcoded placeholder line entry. -/
theorem C6_counterexample :
    (validateScenario "demo-006" (some sc6) FetchResult.err).physics_validation.line_violations
      = [placeholderLineViolation] ∧
    (validateScenario "demo-006" (some sc6) FetchResult.err).physics_validation.line_violations
      ≠ [] := by
  have hv : _validateScenarioData sc6 = false := by
    norm_num [_validateScenarioData, generatorsOf, loadsOf, devicesOf, networkOf,
      busesOf, idOf, includesSub, charsContain, firstBadBus, busBad, busVoltage,
      jsOrQ, jsOrS, sc6, List.isPrefixOf]
  simp [validateScenario, mkResult, hv]

/-- C6 (amended): the rule-based pass's `line_violations` list is empty
exactly when the scenario passes the rule-based check — when the check
fails it contains the single hardcoded placeholder entry
(`line_id = "Line1-2"`, `value = 320`, `limit = 300`) — and the error
result's `line_violations` list is empty. -/
theorem C6_line_violations_amended (scenarioId : String) (s : Scenario) (f : FetchResult) :
    (validateScenario scenarioId (some s) f).physics_validation.line_violations
      = (if _validateScenarioData s then [] else [placeholderLineViolation]) ∧
    (validateScenario scenarioId none FetchResult.err).physics_validation.line_violations
      = [] := by
  cases h : _validateScenarioData s <;>
    simp [validateScenario, mkResult, errorResult, h]

end GridGen
